import Mathlib

/-!
Verification development for the open-super-whisper repository.

Shallow embedding of the transcription core:
* `src/src/core/whisper_api.py` — class `WhisperTranscriber`
  (`__init__`, `set_model`, vocabulary/instruction stores, `_build_prompt`,
  `transcribe`), with Python truthiness (`or`-chains, `if x:`) modelled
  explicitly on optional strings, the filesystem and the remote Azure
  endpoint modelled as oracles, and Python exceptions modelled as an
  `Except` layer that the outer `try/except` of `transcribe` discharges.
* `src/src/gui/windows/main_window.py` — the recording/transcription
  session logic of `MainWindow` (`_toggle_recording_impl`,
  `start_recording`, `stop_recording`, `start_transcription`), as a step
  function on an explicit state record, emitting the observable events.
-/

namespace OpenSuperWhisper

/-- Python truthiness of an optional string: `None` and `""` are falsy,
every other string is truthy (`if x:` in the source). -/
def truthyO : Option String → Bool
  | none => false
  | some s => s ≠ ""

/-- Python `a or b` on two optional strings: yields `a` when `a` is truthy,
otherwise `b` (used for the credential/env fallback chains in `__init__`). -/
def pyOrO (a b : Option String) : Option String :=
  if truthyO a then a else b

/-- Python `a or d` where the right operand is a plain (always present)
string, as in `api_version or "2024-02-15-preview"` and
`self.azure_deployment or self.model`. -/
def pyOrD (a : Option String) (d : String) : String :=
  if truthyO a then a.getD "" else d

/-- The state of a `WhisperTranscriber` instance
(`src/src/core/whisper_api.py`): credentials resolved by `__init__`, the
selected model id, and the custom-vocabulary and system-instruction lists. -/
structure WhisperTranscriber where
  api_key : Option String
  azure_endpoint : Option String
  api_version : String
  azure_deployment : Option String
  model : String
  custom_vocabulary : List String
  system_instructions : List String
deriving Repr, DecidableEq

/-- The error message of the `ValueError` raised by `__init__` when no API
key or endpoint can be resolved. -/
def configErrorMsg : String :=
  "Azure OpenAI settings are required. Provide api_key + azure_endpoint, or set AZURE_OPENAI_API_KEY / AZURE_OPENAI_ENDPOINT environment variables."

/-- `WhisperTranscriber.__init__`: resolve each setting from the argument
with fallback to environment variables (`os.getenv` modelled as the oracle
`env`), raise `ValueError` when neither an API key nor an endpoint is
available, otherwise construct the instance with defaults
`model = "whisper-1"` and empty vocabulary/instruction lists. -/
def initTranscriber (api_key azure_endpoint api_version azure_deployment : Option String)
    (env : String → Option String) : Except String WhisperTranscriber :=
  let key := pyOrO (pyOrO api_key (env "AZURE_OPENAI_API_KEY")) (env "OPENAI_API_KEY")
  let endp := pyOrO azure_endpoint (env "AZURE_OPENAI_ENDPOINT")
  let ver := pyOrD (pyOrO api_version (env "AZURE_OPENAI_API_VERSION")) "2024-02-15-preview"
  let dep := pyOrO azure_deployment (env "AZURE_OPENAI_DEPLOYMENT")
  if truthyO key && truthyO endp then
    .ok { api_key := key, azure_endpoint := endp, api_version := ver,
          azure_deployment := dep, model := "whisper-1",
          custom_vocabulary := [], system_instructions := [] }
  else
    .error configErrorMsg

namespace WhisperTranscriber

/-- `WhisperTranscriber.set_model`: store the given id unconditionally. -/
def set_model (t : WhisperTranscriber) (model : String) : WhisperTranscriber :=
  { t with model := model }

/-- `WhisperTranscriber.add_custom_vocabulary` for a list argument:
`self.custom_vocabulary.extend(terms)`. -/
def add_custom_vocabulary (t : WhisperTranscriber) (terms : List String) : WhisperTranscriber :=
  { t with custom_vocabulary := t.custom_vocabulary ++ terms }

/-- `WhisperTranscriber.clear_custom_vocabulary`. -/
def clear_custom_vocabulary (t : WhisperTranscriber) : WhisperTranscriber :=
  { t with custom_vocabulary := [] }

/-- `WhisperTranscriber.add_system_instruction` for a list argument. -/
def add_system_instruction (t : WhisperTranscriber) (instructions : List String) : WhisperTranscriber :=
  { t with system_instructions := t.system_instructions ++ instructions }

/-- `WhisperTranscriber.clear_system_instructions`. -/
def clear_system_instructions (t : WhisperTranscriber) : WhisperTranscriber :=
  { t with system_instructions := [] }

/-- `WhisperTranscriber._build_prompt`: collect a `"Vocabulary: ..."` part
when the vocabulary list is non-empty and an `"Instructions: ..."` part when
the instruction list is non-empty; return `None` when both are empty,
otherwise the parts joined by a single space. -/
def _build_prompt (t : WhisperTranscriber) : Option String :=
  let prompt_parts : List String :=
    (if t.custom_vocabulary ≠ [] then
      ["Vocabulary: " ++ String.intercalate ", " t.custom_vocabulary] else [])
    ++ (if t.system_instructions ≠ [] then
      ["Instructions: " ++ String.intercalate ". " t.system_instructions] else [])
  if prompt_parts = [] then none
  else some (String.intercalate " " prompt_parts)

end WhisperTranscriber

/-- The `params` dict built by `transcribe` before the API call: `model` and
`response_format` always present, `language` and `prompt` present only when
their Python values are truthy. -/
structure TranscriptionParams where
  model : String
  response_format : String
  language : Option String
  prompt : Option String
deriving Repr, DecidableEq

/-- The request parameters built in `transcribe` lines 206-219:
`model` is `self.azure_deployment or self.model`; `language` is added only
when the `language` argument is truthy; `prompt` is added only when
`_build_prompt()` returns a truthy value. -/
def buildParams (t : WhisperTranscriber) (language : Option String)
    (response_format : String) : TranscriptionParams :=
  { model := pyOrD t.azure_deployment t.model,
    response_format := response_format,
    language := if truthyO language then language else none,
    prompt := if truthyO t._build_prompt then t._build_prompt else none }

/-- Python exceptions that can cross `transcribe`'s `try` block: the
`FileNotFoundError` it raises itself, and any exception raised by the file
open / remote call (network, auth, SDK errors), carrying `str(e)`. -/
inductive PyExc where
  | fileNotFound (msg : String)
  | apiError (msg : String)
deriving Repr, DecidableEq

/-- `str(e)` for a modelled exception. -/
def PyExc.msg : PyExc → String
  | .fileNotFound m => m
  | .apiError m => m

/-- A Python value as far as the response normalization inspects it. -/
inductive PyObj where
  | pstr (s : String)
  | pdict (fields : List (String × PyObj))
  | plist (items : List PyObj)

/-- The SDK response object, recording exactly the features `transcribe`
probes: `model_dump()` when the attribute exists, the value itself when it
is a `dict`/`list` instance, the result of `json.loads` when that succeeds,
the `text` attribute when present, and `str(response)`. -/
structure ApiResponse where
  modelDump : Option PyObj
  dictOrList : Option PyObj
  jsonLoads : Option PyObj
  textAttr : Option String
  strForm : String

/-- The value `transcribe` returns: a string (text-like formats or the
error branch) or a structured object (json formats). -/
inductive TResult where
  | str (s : String)
  | obj (o : PyObj)

/-- The body of `transcribe`'s `try` block: check the file exists (else
raise `FileNotFoundError`), build the params, perform the remote call
(`remote` oracle, which may raise), then normalize the response exactly as
lines 229-242 do. `fileExists` is the `Path(...).exists()` oracle. -/
def transcribeBody (t : WhisperTranscriber) (audio_file : String)
    (language : Option String) (response_format : String)
    (fileExists : String → Bool)
    (remote : TranscriptionParams → Except PyExc ApiResponse) :
    Except PyExc TResult :=
  if !fileExists audio_file then
    .error (.fileNotFound ("音声ファイルが見つかりません: " ++ audio_file))
  else
    let params := buildParams t language response_format
    match remote params with
    | .error e => .error e
    | .ok response =>
      if response_format = "json" ∨ response_format = "verbose_json" then
        match response.modelDump with
        | some d => .ok (.obj d)
        | none =>
          match response.dictOrList with
          | some v => .ok (.obj v)
          | none =>
            match response.jsonLoads with
            | some v => .ok (.obj v)
            | none =>
              .ok (.obj (.pdict [("text",
                .pstr (response.textAttr.getD response.strForm))]))
      else
        .ok (.str (response.textAttr.getD response.strForm))

/-- `WhisperTranscriber.transcribe`: the `try/except Exception` wrapper —
any exception from the body is caught and turned into the string
`"Error: " + str(e)`; no exception propagates to the caller. -/
def transcribe (t : WhisperTranscriber) (audio_file : String)
    (language : Option String) (response_format : String)
    (fileExists : String → Bool)
    (remote : TranscriptionParams → Except PyExc ApiResponse) : TResult :=
  match transcribeBody t audio_file language response_format fileExists remote with
  | .ok r => r
  | .error e => .str ("Error: " ++ e.msg)

/-- The session-relevant state of `MainWindow`: whether the audio recorder
is capturing (`AudioCapture.isRecording()`, modelled from the spec §6 since
`audio_recorder.py` is outside the provided sources: `startRecording` makes
it true and `stopRecording` makes it false), whether `whisper_transcriber`
is configured (not `None`), and whether a background transcription thread
is in flight (dispatched and its `transcription_complete` signal not yet
delivered). -/
structure MainWindowState where
  recorderRecording : Bool
  transcriberConfigured : Bool
  transcribing : Bool
deriving Repr, DecidableEq

/-- The externally observable events the session logic emits. -/
inductive UiEvent where
  | configRequired
  | recordingStatusChanged (isRecording : Bool)
  | transcriptionStarted (audio_file : String)
deriving Repr, DecidableEq

/-- `MainWindow.start_recording`: warn and do nothing when the transcriber
is not configured; otherwise start the recorder and emit
`recording_status_changed(True)`. -/
def start_recording (s : MainWindowState) : MainWindowState × List UiEvent :=
  if !s.transcriberConfigured then
    (s, [.configRequired])
  else
    ({ s with recorderRecording := true }, [.recordingStatusChanged true])

/-- `MainWindow.start_transcription(audio_file)`: dispatch the background
transcription thread only when `audio_file` is truthy. -/
def start_transcription (s : MainWindowState) (audio_file : Option String) :
    MainWindowState × List UiEvent :=
  if truthyO audio_file then
    ({ s with transcribing := true }, [.transcriptionStarted (audio_file.getD "")])
  else
    (s, [])

/-- `MainWindow.stop_recording`: stop the recorder (its `stop_recording`
returns the captured artifact `audio_file`, or `None`/empty when capture
yielded nothing), emit `recording_status_changed(False)`, and start a
transcription only when the artifact is truthy. -/
def stop_recording (s : MainWindowState) (audio_file : Option String) :
    MainWindowState × List UiEvent :=
  let s1 := { s with recorderRecording := false }
  if truthyO audio_file then
    let r := start_transcription s1 audio_file
    (r.1, .recordingStatusChanged false :: r.2)
  else
    (s1, [.recordingStatusChanged false])

/-- `MainWindow._toggle_recording_impl`: the only guard is
`self.audio_recorder.is_recording()` — stop when recording, start
otherwise. `audio_file` is the artifact the recorder would return if
stopped (a collaborator input, unused on the start branch). -/
def _toggle_recording_impl (s : MainWindowState) (audio_file : Option String) :
    MainWindowState × List UiEvent :=
  if s.recorderRecording then stop_recording s audio_file
  else start_recording s

/-- Delivery of the `transcription_complete` signal: the background job is
finished (`MainWindow.on_transcription_complete`). -/
def on_transcription_complete (s : MainWindowState) : MainWindowState :=
  { s with transcribing := false }

/-- The session state of the spec's state machine, read off the
`MainWindow` state: Recording while the recorder captures, Transcribing
while a background job is in flight, Idle otherwise. -/
inductive SessionState where
  | idle
  | recording
  | transcribing
deriving Repr, DecidableEq

/-- Map the concrete window state to the spec's session state. -/
def MainWindowState.session (s : MainWindowState) : SessionState :=
  if s.recorderRecording then .recording
  else if s.transcribing then .transcribing
  else .idle

/-! ## Concrete instances and specification-side definitions -/

/-- A fresh transcriber as `__init__` builds it from an explicit key and
endpoint with no environment variables set. -/
def freshT : WhisperTranscriber :=
  { api_key := some "k", azure_endpoint := some "e",
    api_version := "2024-02-15-preview", azure_deployment := none,
    model := "whisper-1", custom_vocabulary := [], system_instructions := [] }

/-- An environment with no variables set. -/
def envNone : String → Option String := fun _ => none

/-- An environment providing the API key only through the `OPENAI_API_KEY`
fallback and the endpoint through `AZURE_OPENAI_ENDPOINT`. -/
def envW : String → Option String := fun k =>
  if k = "OPENAI_API_KEY" then some "k2"
  else if k = "AZURE_OPENAI_ENDPOINT" then some "e2"
  else none

/-- The transcriber `__init__` builds under `envW` with all arguments
absent. -/
def tEnvW : WhisperTranscriber :=
  { api_key := some "k2", azure_endpoint := some "e2",
    api_version := "2024-02-15-preview", azure_deployment := none,
    model := "whisper-1", custom_vocabulary := [], system_instructions := [] }

/-- A remote endpoint that always fails with a connection error. -/
def remoteFail : TranscriptionParams → Except PyExc ApiResponse :=
  fun _ => .error (.apiError "Connection error")

/-- `_build_prompt` as §4.1 of the spec words it: vocabulary segment when
the vocabulary store is non-empty, instruction segment when the instruction
store is non-empty, present segments joined by one space, absent when both
stores are empty. -/
def buildPromptSpec (vocab instrs : List String) : Option String :=
  match vocab, instrs with
  | [], [] => none
  | v, [] => some ("Vocabulary: " ++ String.intercalate ", " v)
  | [], i => some ("Instructions: " ++ String.intercalate ". " i)
  | v, i => some ("Vocabulary: " ++ String.intercalate ", " v ++ " "
      ++ ("Instructions: " ++ String.intercalate ". " i))

/-! ## Helper lemmas -/

/-- Truthiness of a Python `or` chain is the disjunction of truthiness. -/
theorem truthyO_pyOrO (a b : Option String) :
    truthyO (pyOrO a b) = (truthyO a || truthyO b) := by
  unfold pyOrO
  by_cases h : truthyO a <;> simp [h]

/-- Truthiness of an optional string spelt out. -/
theorem truthyO_eq_true_iff (a : Option String) :
    truthyO a = true ↔ ∃ s, a = some s ∧ s ≠ "" := by
  cases a with
  | none => simp [truthyO]
  | some s =>
    simp only [truthyO, Option.some.injEq]
    constructor
    · intro h
      exact ⟨s, rfl, by simpa using h⟩
    · rintro ⟨u, rfl, hu⟩
      simpa using hu

/-- `__init__` in closed form: succeed exactly when both fallback chains
resolve to a truthy value, and then store the resolved settings with the
`"whisper-1"` default model and empty stores. -/
theorem initTranscriber_eq (a e v d : Option String)
    (env : String → Option String) :
    initTranscriber a e v d env =
      if ((truthyO a || truthyO (env "AZURE_OPENAI_API_KEY")
            || truthyO (env "OPENAI_API_KEY"))
          && (truthyO e || truthyO (env "AZURE_OPENAI_ENDPOINT"))) then
        .ok { api_key := pyOrO (pyOrO a (env "AZURE_OPENAI_API_KEY"))
                (env "OPENAI_API_KEY"),
              azure_endpoint := pyOrO e (env "AZURE_OPENAI_ENDPOINT"),
              api_version := pyOrD (pyOrO v (env "AZURE_OPENAI_API_VERSION"))
                "2024-02-15-preview",
              azure_deployment := pyOrO d (env "AZURE_OPENAI_DEPLOYMENT"),
              model := "whisper-1", custom_vocabulary := [],
              system_instructions := [] }
      else .error configErrorMsg := by
  simp only [initTranscriber, truthyO_pyOrO, Bool.or_assoc]

/-- Truthiness of `None`. -/
theorem truthyO_none : truthyO none = false := rfl

/-- `String.intercalate` on a one-element list. -/
theorem intercalate_singleton (s x : String) : String.intercalate s [x] = x := rfl

/-- `String.intercalate` on a two-element list. -/
theorem intercalate_pair (s x y : String) :
    String.intercalate s [x, y] = x ++ s ++ y := rfl

/-- Appending to a non-empty string stays non-empty. -/
theorem append_ne_empty_left (a b : String) (ha : a.length ≠ 0) : a ++ b ≠ "" := by
  intro h
  have h2 := congrArg String.length h
  rw [String.length_append] at h2
  simp at h2
  omega

/-- A non-`None` result of `_build_prompt` is never the empty string: every
emitted segment begins with a non-empty literal. -/
theorem build_prompt_ne_empty (t : WhisperTranscriber) :
    t._build_prompt ≠ some "" := by
  rcases t with ⟨k, e, v, d, m, voc, ins⟩
  cases voc <;> cases ins <;>
    simp only [WhisperTranscriber._build_prompt, ne_eq, List.cons_ne_self,
      not_true, not_false_eq_true, eq_self_iff_true, reduceCtorEq, if_true,
      if_false, ite_true, ite_false, List.nil_append, List.append_nil,
      List.cons_append, reduceIte, Option.some.injEq, intercalate_singleton,
      intercalate_pair, String.append_assoc] <;>
  first
    | simp
    | (apply append_ne_empty_left
       decide)

/-! ## C4: `_build_prompt` shape -/

/-- C4: `_build_prompt` is exactly the deterministic function of the two
stores the spec describes, and on vocabulary `["Kubernetes", "gRPC"]` with
instructions `["Remove filler words"]` it yields exactly
`"Vocabulary: Kubernetes, gRPC Instructions: Remove filler words"`;
with both stores empty it yields `none`, not the empty string. -/
theorem c4_build_prompt_correct (t : WhisperTranscriber) :
    t._build_prompt = buildPromptSpec t.custom_vocabulary t.system_instructions ∧
    WhisperTranscriber._build_prompt
      { freshT with custom_vocabulary := ["Kubernetes", "gRPC"],
                    system_instructions := ["Remove filler words"] }
      = some "Vocabulary: Kubernetes, gRPC Instructions: Remove filler words" ∧
    WhisperTranscriber._build_prompt
      { freshT with custom_vocabulary := [], system_instructions := [] } = none := by
  refine ⟨?_, by decide, by decide⟩
  rcases t with ⟨k, e, v, d, m, voc, ins⟩
  cases voc <;> cases ins <;>
    simp [WhisperTranscriber._build_prompt, buildPromptSpec,
      intercalate_singleton, intercalate_pair, String.append_assoc]

/-! ## C5: deployment-name precedence -/

/-- C5: the `model` field of every request built by `transcribe` is the
deployment name whenever one is configured (non-`None`, non-empty), and the
selected model id otherwise. -/
theorem c5_deployment_precedence (t : WhisperTranscriber)
    (language : Option String) (response_format : String) :
    (buildParams t language response_format).model =
      match t.azure_deployment with
      | some d => if d = "" then t.model else d
      | none => t.model := by
  rcases t with ⟨k, e, v, d, m, voc, ins⟩
  cases d with
  | none => simp [buildParams, pyOrD, truthyO]
  | some s =>
    by_cases h : s = "" <;> simp [buildParams, pyOrD, truthyO, h]

/-! ## C9: optional `language` and `prompt` fields -/

/-- C9: the request has a `language` field iff the language argument is a
non-empty string (and then the field equals the argument), and a `prompt`
field iff `_build_prompt` returns a prompt (and then the field equals it). -/
theorem c9_optional_request_fields (t : WhisperTranscriber)
    (language : Option String) (response_format : String) :
    ((buildParams t language response_format).language ≠ none ↔
      ∃ s, language = some s ∧ s ≠ "") ∧
    ((buildParams t language response_format).language ≠ none →
      (buildParams t language response_format).language = language) ∧
    ((buildParams t language response_format).prompt ≠ none ↔
      t._build_prompt ≠ none) ∧
    ((buildParams t language response_format).prompt ≠ none →
      (buildParams t language response_format).prompt = t._build_prompt) := by
  refine ⟨?_, ?_, ?_, ?_⟩
  · rw [← truthyO_eq_true_iff]
    simp only [buildParams]
    by_cases h : truthyO language
    · simp only [h, if_true, iff_true]
      rw [truthyO_eq_true_iff] at h
      rcases h with ⟨s, rfl, _⟩
      simp
    · simp [h]
  · simp only [buildParams]
    by_cases h : truthyO language <;> simp [h]
  · simp only [buildParams]
    by_cases h : truthyO t._build_prompt
    · rw [truthyO_eq_true_iff] at h
      rcases h with ⟨s, hs, hs2⟩
      simp [hs, truthyO, hs2]
    · have hb : t._build_prompt = none := by
        cases hb : t._build_prompt with
        | none => rfl
        | some s =>
          exact absurd ((truthyO_eq_true_iff t._build_prompt).mpr
            ⟨s, hb, fun he => build_prompt_ne_empty t (by rw [hb, he])⟩) h
      simp [h, hb]
  · simp only [buildParams]
    by_cases h : truthyO t._build_prompt <;> simp [h]

/-- C9 witness: at a concrete transcriber with vocabulary `["k8s"]` and
language `"en"`, both optional fields are present. -/
theorem c9_witness :
    (buildParams { freshT with custom_vocabulary := ["k8s"] } (some "en") "text").language ≠ none ∧
    (buildParams { freshT with custom_vocabulary := ["k8s"] } (some "en") "text").prompt ≠ none :=
  ⟨(c9_optional_request_fields { freshT with custom_vocabulary := ["k8s"] }
      (some "en") "text").1.mpr ⟨"en", rfl, by decide⟩,
   (c9_optional_request_fields { freshT with custom_vocabulary := ["k8s"] }
      (some "en") "text").2.2.1.mpr (by decide)⟩

/-! ## C10: default model and `set_model` -/

/-- C10: every successfully constructed transcriber starts with model id
`"whisper-1"`, and `set_model` stores any string unvalidated. -/
theorem c10_default_model_and_set_model :
    (∀ (a e v d : Option String) (env : String → Option String)
        (t : WhisperTranscriber),
      initTranscriber a e v d env = .ok t → t.model = "whisper-1") ∧
    (∀ (t : WhisperTranscriber) (id : String), (t.set_model id).model = id) := by
  constructor
  · intro a e v d env t h
    simp only [initTranscriber] at h
    split at h
    · simp only [Except.ok.injEq] at h
      rw [← h]
    · exact absurd h (by simp)
  · intro t id
    rfl

/-- C10 witness: a concrete construction yields model `"whisper-1"`, and a
concrete `set_model` call stores an id that is not in the catalog. -/
theorem c10_witness :
    freshT.model = "whisper-1" ∧
    (freshT.set_model "totally-made-up-model").model = "totally-made-up-model" :=
  ⟨c10_default_model_and_set_model.1 (some "k") (some "e") none none envNone
      freshT rfl,
   c10_default_model_and_set_model.2 freshT "totally-made-up-model"⟩

/-! ## C6: configuration requires key and endpoint -/

/-- C6: with no environment variables set, constructing the service
succeeds (yields an instance) exactly when both a non-empty API key and a
non-empty endpoint are provided, and otherwise fails with the
configuration `ValueError`, so no usable instance exists. -/
theorem c6_configure_requires_credentials
    (api_key azure_endpoint api_version azure_deployment : Option String) :
    ((∃ t, initTranscriber api_key azure_endpoint api_version azure_deployment
        envNone = .ok t) ↔
      ((∃ s, api_key = some s ∧ s ≠ "") ∧
       (∃ s, azure_endpoint = some s ∧ s ≠ ""))) ∧
    (¬((∃ s, api_key = some s ∧ s ≠ "") ∧
       (∃ s, azure_endpoint = some s ∧ s ≠ "")) →
      initTranscriber api_key azure_endpoint api_version azure_deployment
        envNone = .error configErrorMsg) := by
  have h := initTranscriber_eq api_key azure_endpoint api_version
    azure_deployment envNone
  simp only [envNone, truthyO_none, Bool.or_false] at h
  constructor
  · rw [h]
    constructor
    · rintro ⟨t, ht⟩
      split at ht
      · rename_i hc
        rw [Bool.and_eq_true] at hc
        exact ⟨(truthyO_eq_true_iff _).mp hc.1, (truthyO_eq_true_iff _).mp hc.2⟩
      · exact absurd ht (by simp)
    · rintro ⟨hk, he⟩
      rw [← truthyO_eq_true_iff] at hk he
      refine ⟨_, if_pos ?_⟩
      rw [Bool.and_eq_true]
      exact ⟨hk, he⟩
  · intro hn
    rw [h, if_neg]
    rw [Bool.and_eq_true, truthyO_eq_true_iff, truthyO_eq_true_iff]
    exact hn

/-- C6 witness: a missing API key yields the configuration error; an
explicit key and endpoint yield an instance. -/
theorem c6_witness :
    initTranscriber none (some "e") none none envNone = .error configErrorMsg ∧
    (∃ t, initTranscriber (some "k") (some "e") none none envNone = .ok t) :=
  ⟨(c6_configure_requires_credentials none (some "e") none none).2 (by simp),
   (c6_configure_requires_credentials (some "k") (some "e") none none).1.mpr
     ⟨⟨"k", rfl, by decide⟩, ⟨"e", rfl, by decide⟩⟩⟩

/-! ## C8: environment-variable fallback in the constructor -/

/-- C8: the constructor raises exactly when the API-key chain (argument,
`AZURE_OPENAI_API_KEY`, `OPENAI_API_KEY`) is entirely absent/empty or the
endpoint chain (argument, `AZURE_OPENAI_ENDPOINT`) is; and when it
succeeds with no `api_version` argument and no `AZURE_OPENAI_API_VERSION`
variable, the stored api_version is `"2024-02-15-preview"`. -/
theorem c8_env_fallback (a e v d : Option String)
    (env : String → Option String) :
    ((initTranscriber a e v d env = .error configErrorMsg) ↔
      ((truthyO a = false ∧ truthyO (env "AZURE_OPENAI_API_KEY") = false ∧
        truthyO (env "OPENAI_API_KEY") = false) ∨
       (truthyO e = false ∧ truthyO (env "AZURE_OPENAI_ENDPOINT") = false))) ∧
    (∀ t, initTranscriber a e v d env = .ok t → v = none →
      env "AZURE_OPENAI_API_VERSION" = none →
      t.api_version = "2024-02-15-preview") := by
  have h := initTranscriber_eq a e v d env
  constructor
  · rw [h]
    cases ha : truthyO a <;>
      cases h1 : truthyO (env "AZURE_OPENAI_API_KEY") <;>
      cases h2 : truthyO (env "OPENAI_API_KEY") <;>
      cases hb : truthyO e <;>
      cases h3 : truthyO (env "AZURE_OPENAI_ENDPOINT") <;>
      simp [ha, h1, h2, hb, h3]
  · intro t ht hv henv
    rw [h] at ht
    split at ht
    · simp only [Except.ok.injEq] at ht
      rw [← ht]
      simp [hv, henv, pyOrO, pyOrD, truthyO]
    · exact absurd ht (by simp)

/-- C8 witness: with absent arguments, an empty environment yields the
configuration error, while an environment carrying `OPENAI_API_KEY` and
`AZURE_OPENAI_ENDPOINT` yields an instance whose api_version is the
default. -/
theorem c8_witness :
    initTranscriber none none none none envNone = .error configErrorMsg ∧
    tEnvW.api_version = "2024-02-15-preview" :=
  ⟨(c8_env_fallback none none none none envNone).1.mpr
     (Or.inl ⟨rfl, rfl, rfl⟩),
   (c8_env_fallback none none none none envW).2 tEnvW rfl rfl rfl⟩

/-! ## C2: `transcribe` swallows every failure -/

/-- C2: `transcribe` is a total function of its oracles — it never
propagates an exception — and whenever the body raises any exception
(missing file, request/remote failure), the returned value is the string
`"Error: " + str(e)`, i.e. a result prefixed with the error marker. -/
theorem c2_transcribe_swallows_failures (t : WhisperTranscriber)
    (audio_file : String) (language : Option String)
    (response_format : String) (fileExists : String → Bool)
    (remote : TranscriptionParams → Except PyExc ApiResponse) (e : PyExc)
    (h : transcribeBody t audio_file language response_format fileExists
      remote = .error e) :
    transcribe t audio_file language response_format fileExists remote
      = .str ("Error: " ++ e.msg) := by
  unfold transcribe
  rw [h]

/-- C2 witness: a network failure during the remote call comes back as an
error-prefixed string. -/
theorem c2_witness :
    transcribe freshT "rec.wav" none "text" (fun _ => true) remoteFail
      = .str ("Error: " ++ "Connection error") :=
  c2_transcribe_swallows_failures freshT "rec.wav" none "text"
    (fun _ => true) remoteFail (.apiError "Connection error") rfl

/-! ## C3: nonexistent path -/

/-- C3: when the path names no existing file, the body raises exactly the
`FileNotFoundError`, and `transcribe` returns — not raises — the
error-prefixed result carrying that not-found message. -/
theorem c3_nonexistent_path_result (t : WhisperTranscriber)
    (audio_file : String) (language : Option String)
    (response_format : String) (fileExists : String → Bool)
    (remote : TranscriptionParams → Except PyExc ApiResponse)
    (h : fileExists audio_file = false) :
    transcribeBody t audio_file language response_format fileExists remote
      = .error (.fileNotFound ("音声ファイルが見つかりません: " ++ audio_file)) ∧
    transcribe t audio_file language response_format fileExists remote
      = .str ("Error: " ++ ("音声ファイルが見つかりません: " ++ audio_file)) := by
  have hb : transcribeBody t audio_file language response_format fileExists
      remote = .error (.fileNotFound ("音声ファイルが見つかりません: " ++ audio_file)) := by
    unfold transcribeBody
    rw [h]
    simp
  refine ⟨hb, ?_⟩
  unfold transcribe
  rw [hb]
  rfl

/-- C3 witness: a concrete missing file produces the not-found-tagged
error string. -/
theorem c3_witness :
    transcribe freshT "missing.wav" none "text" (fun _ => false) remoteFail
      = .str ("Error: " ++ ("音声ファイルが見つかりません: " ++ "missing.wav")) :=
  (c3_nonexistent_path_result freshT "missing.wav" none "text"
    (fun _ => false) remoteFail rfl).2

/-! ## C1: toggle during Transcribing -/

/-- C1 counterexample: in the Transcribing state (recorder stopped,
transcriber configured, background job in flight) a toggle is NOT ignored —
the state changes and a new recording starts. -/
theorem c1_counterexample :
    MainWindowState.session
      { recorderRecording := false, transcriberConfigured := true,
        transcribing := true } = .transcribing ∧
    (_toggle_recording_impl
      { recorderRecording := false, transcriberConfigured := true,
        transcribing := true } none).1
      ≠ { recorderRecording := false, transcriberConfigured := true,
          transcribing := true } ∧
    (_toggle_recording_impl
      { recorderRecording := false, transcriberConfigured := true,
        transcribing := true } none).1.recorderRecording = true := by
  decide

/-- C1 (amended): a toggle arriving while the session is Transcribing is
treated exactly like a toggle from Idle — the only guard is the recorder's
`is_recording` flag, which is false once capture stopped — so with a
configured transcriber it starts a new recording and emits the
recording-started status change while the previous transcription job is
still in flight. -/
theorem c1_toggle_in_transcribing_starts_recording (s : MainWindowState)
    (audio_file : Option String) (h1 : s.recorderRecording = false)
    (h2 : s.transcriberConfigured = true) :
    _toggle_recording_impl s audio_file
      = ({ s with recorderRecording := true },
          [.recordingStatusChanged true]) := by
  simp [_toggle_recording_impl, start_recording, h1, h2]

/-- C1 witness: the amended behaviour at the concrete Transcribing state. -/
theorem c1_witness :
    _toggle_recording_impl
      { recorderRecording := false, transcriberConfigured := true,
        transcribing := true } none
      = ({ recorderRecording := true, transcriberConfigured := true,
           transcribing := true }, [.recordingStatusChanged true]) :=
  c1_toggle_in_transcribing_starts_recording
    { recorderRecording := false, transcriberConfigured := true,
      transcribing := true } none rfl rfl

/-! ## C7: stopping a recording without an artifact -/

/-- C7: toggling while recording, when the recorder yields no artifact
(`None` or empty), moves the session directly to Idle, leaves no
transcription in flight, and emits no transcription-started event. -/
theorem c7_stop_without_artifact (s : MainWindowState)
    (audio_file : Option String) (hrec : s.recorderRecording = true)
    (htr : s.transcribing = false) (hempty : truthyO audio_file = false) :
    (_toggle_recording_impl s audio_file).1.session = .idle ∧
    (_toggle_recording_impl s audio_file).1.transcribing = false ∧
    (∀ f, UiEvent.transcriptionStarted f ∉
      (_toggle_recording_impl s audio_file).2) := by
  simp [_toggle_recording_impl, stop_recording, MainWindowState.session,
    hrec, htr, hempty]

/-- C7 witness: the concrete Recording state stopped with no artifact lands
in Idle with no transcription event. -/
theorem c7_witness :
    (_toggle_recording_impl
      { recorderRecording := true, transcriberConfigured := true,
        transcribing := false } none).1.session = .idle ∧
    (_toggle_recording_impl
      { recorderRecording := true, transcriberConfigured := true,
        transcribing := false } none).1.transcribing = false ∧
    UiEvent.transcriptionStarted "out.wav" ∉
      (_toggle_recording_impl
        { recorderRecording := true, transcriberConfigured := true,
          transcribing := false } none).2 :=
  ⟨(c7_stop_without_artifact
      { recorderRecording := true, transcriberConfigured := true,
        transcribing := false } none rfl rfl rfl).1,
   (c7_stop_without_artifact
      { recorderRecording := true, transcriberConfigured := true,
        transcribing := false } none rfl rfl rfl).2.1,
   (c7_stop_without_artifact
      { recorderRecording := true, transcriberConfigured := true,
        transcribing := false } none rfl rfl rfl).2.2 "out.wav"⟩

end OpenSuperWhisper
